import Mathlib

/-!
Verification of the write/read consistency pipeline of the
go-ecommerce-microservices repository: the order projection
(services/orders/internal/orders/projections/mongo_order_projection.go),
and the Unit of Work / Mediator / Event Publisher / bus-delivery contracts
described in the specification.

Shallow embedding conventions:
* UUIDs and timestamps are modelled as `Nat`.
* Go errors are modelled as `Except String`.
* The fresh-UUID source `uuid.NewV4()` is modelled as a counter threaded
  through the projection state (`nextUuid`); none of the proved or refuted
  statements depend on the actual values drawn, only on freshness.
* External mongo persistence is modelled as an in-memory list of documents;
  infrastructure failures of the store itself are out of the model.
-/

namespace ECommerce

/-! ## Data model of the order projection (from the source) -/

/-- A shop item as carried by `OrderCreatedEventV1.ShopItems`. -/
structure ShopItem where
  Title : String
  Description : String
  Quantity : Nat
  Price : Int
  deriving DecidableEq, Repr

/-- The read-model shape of a shop item
(`read_models.ShopItemReadModel`). -/
structure ShopItemReadModel where
  Title : String
  Description : String
  Quantity : Nat
  Price : Int
  deriving DecidableEq, Repr

/-- `creatingOrderEvents.OrderCreatedEventV1`: the domain event consumed by
`mongoOrderProjection.onOrderCreated`.  Only the fields the projection reads
are modelled. -/
structure OrderCreatedEventV1 where
  OrderId : Nat
  ShopItems : List ShopItem
  AccountEmail : String
  DeliveryAddress : String
  DeliveredTime : Nat
  deriving DecidableEq, Repr

/-- The polymorphic `streamEvent.Event` interface value: either the one event
kind the order projection recognizes, or any other event type (identified by
its type tag). -/
inductive EventPayload where
  | orderCreated (evt : OrderCreatedEventV1)
  | otherEvent (typeTag : String)
  deriving DecidableEq, Repr

/-- `models.StreamEvent`: the envelope handed to `ProcessEvent` by the
subscription worker. -/
structure StreamEvent where
  StreamId : Nat
  Version : Nat
  Event : EventPayload
  deriving DecidableEq, Repr

/-- `read_models.OrderReadModel`: the mongo document written by the
projection.  `Id` is the document id the projection draws from
`uuid.NewV4()`; `OrderId` is the aggregate id from the event. -/
structure OrderReadModel where
  Id : Nat
  OrderId : Nat
  ShopItems : List ShopItemReadModel
  AccountEmail : String
  DeliveryAddress : String
  DeliveredTime : Nat
  deriving DecidableEq, Repr

/-- `read_models.NewOrderReadModel`: plain constructor, field for field as the
projection calls it. -/
def NewOrderReadModel (id orderId : Nat) (items : List ShopItemReadModel)
    (email address : String) (deliveredTime : Nat) : OrderReadModel :=
  { Id := id, OrderId := orderId, ShopItems := items, AccountEmail := email,
    DeliveryAddress := address, DeliveredTime := deliveredTime }

/-- State owned by the projection side: the mongo read store (the documents
`OrderReadRepository.CreateOrder` has inserted, in insertion order) and the
supply of fresh UUIDs (`uuid.NewV4()` modelled as a counter). -/
structure ProjState where
  docs : List OrderReadModel
  nextUuid : Nat
  deriving DecidableEq, Repr

/-- The dependencies the projection is constructed with.  `mapShopItems`
stands for the external `mapper.Map[[]*read_models.ShopItemReadModel]` call,
whose configured profile lives outside the shown sources; the projection's
claims only depend on how `onOrderCreated` reacts to its success or failure,
so it is kept as a parameter. -/
structure ProjectionDeps where
  mapShopItems : List ShopItem → Except String (List ShopItemReadModel)

/-- `mongoOrderProjection.onOrderCreated`: maps the event's shop items, and on
success inserts a fresh `OrderReadModel` (with a brand-new `uuid.NewV4()`
document id) through `mongoOrderRepository.CreateOrder`.  On mapping failure
the wrapped error is returned before any store access. -/
def onOrderCreated (deps : ProjectionDeps) (evt : OrderCreatedEventV1)
    (st : ProjState) : Except String Unit × ProjState :=
  match deps.mapShopItems evt.ShopItems with
  | .error e =>
      (.error ("[mongoOrderProjection_onOrderCreated.Map] error in mapping shopItems: " ++ e), st)
  | .ok items =>
      let orderRead := NewOrderReadModel st.nextUuid evt.OrderId items
        evt.AccountEmail evt.DeliveryAddress evt.DeliveredTime
      (.ok (), { docs := st.docs ++ [orderRead], nextUuid := st.nextUuid + 1 })

/-- `mongoOrderProjection.ProcessEvent`: type-switch on the stream event's
payload; the single recognized case is `*creatingOrderEvents.OrderCreatedEventV1`;
every other event type falls through to `return nil` without touching the
repository. -/
def ProcessEvent (deps : ProjectionDeps) (streamEvent : StreamEvent)
    (st : ProjState) : Except String Unit × ProjState :=
  match streamEvent.Event with
  | .orderCreated evt => onOrderCreated deps evt st
  | .otherEvent _ => (.ok (), st)

/-- A concrete mapping profile for witnesses: the field-for-field
`ShopItem → ShopItemReadModel` translation the real mapper is configured
with. -/
def sampleMapShopItems (items : List ShopItem) :
    Except String (List ShopItemReadModel) :=
  .ok (items.map fun it =>
    { Title := it.Title, Description := it.Description,
      Quantity := it.Quantity, Price := it.Price })

/-- Witness dependencies whose mapper always succeeds. -/
def sampleDeps : ProjectionDeps := { mapShopItems := sampleMapShopItems }

/-- Witness dependencies whose mapper always fails. -/
def failingDeps : ProjectionDeps :=
  { mapShopItems := fun _ => .error "missing mapping profile" }

/-- Sample items for the scenario of §8 of the spec. -/
def itemA : ShopItem :=
  { Title := "A", Description := "item A", Quantity := 1, Price := 10 }

def itemB : ShopItem :=
  { Title := "B", Description := "item B", Quantity := 2, Price := 25 }

/-- The `CreateOrder{orderId=7, items=[A,B]}` scenario event of the spec. -/
def sampleOrderCreated : OrderCreatedEventV1 :=
  { OrderId := 7, ShopItems := [itemA, itemB], AccountEmail := "a@b.c",
    DeliveryAddress := "1 Main St", DeliveredTime := 100 }

/-- Its envelope at stream position 1. -/
def sampleEnvelope : StreamEvent :=
  { StreamId := 7, Version := 1, Event := .orderCreated sampleOrderCreated }

/-- The empty read store with a fresh uuid supply. -/
def emptyProjState : ProjState := { docs := [], nextUuid := 0 }

/-! ## Unit of Work (§4.1 of the spec)

Modelled from the spec: the Unit-of-Work implementation (`Do` of the catalogs
and orders unit of work) is not among the shown sources — only its mocks,
callers and test fixtures appear — so the contract of §4.1 is embedded
directly. -/

/-- A domain event raised by an aggregate inside a transaction (§3):
aggregate id, per-aggregate stream position, and payload tag. -/
structure DomainEvent where
  aggregateId : Nat
  position : Nat
  payload : String
  deriving DecidableEq, Repr

/-- One write-side state change made inside the transaction. -/
structure Write where
  aggregateId : Nat
  newState : String
  deriving DecidableEq, Repr

/-- What one execution of `action` produced: the state changes it asked the
repositories to make, the domain events those repositories buffered, and its
returned error, if any. -/
structure ActionOutcome where
  writes : List Write
  events : List DomainEvent
  err : Option String
  deriving Repr

/-- Errors surfaced by `Do` (§7): the action's own error (after rollback), or
the distinct publish-after-commit case where the write stood. -/
inductive UowError where
  | actionError (msg : String)
  | publishAfterCommitError (msg : String)
  deriving DecidableEq, Repr

/-- Observable transaction/publish steps, in the order `Do` performs them. -/
inductive UowOp where
  | beginTx
  | commitTx
  | rollbackTx
  | publishBatch (batch : List DomainEvent)
  deriving DecidableEq, Repr

/-- Everything observable about one `Do` run: the error returned to the
caller, the durable database state afterwards, the batch actually handed to
the Event Publisher, and the ordered trace of transaction/publish steps. -/
structure DoResult where
  res : Except UowError Unit
  db : List Write
  published : List DomainEvent
  trace : List UowOp
  deriving Repr

/-- Modelled from the spec: `Do(ctx, action)` of §4.1.  Begins a transaction,
runs `action`; on an action error rolls back (no write survives, nothing is
published); on success commits, and only then hands the full buffered batch
to the Event Publisher; a publish failure after commit is surfaced as
`publishAfterCommitError` while the committed writes stand.
`publishOk` stands for the bus accepting or rejecting the batch. -/
def Do (publishOk : List DomainEvent → Bool) (action : List Write → ActionOutcome)
    (db : List Write) : DoResult :=
  let out := action db
  match out.err with
  | some e =>
      { res := .error (.actionError e), db := db, published := [],
        trace := [.beginTx, .rollbackTx] }
  | none =>
      let committed := db ++ out.writes
      if publishOk out.events then
        { res := .ok (), db := committed, published := out.events,
          trace := [.beginTx, .commitTx, .publishBatch out.events] }
      else
        { res := .error (.publishAfterCommitError "publishing domain events failed"),
          db := committed, published := [],
          trace := [.beginTx, .commitTx, .publishBatch out.events] }

/-! ## Command/Query Mediator registration (§4.2, §8 P5)

Modelled from the spec: the mediator's handler registry (the
`go-mediatr` registration used via `mediatr.ConfigProductsMediator`) is not
among the shown sources; §4.2's registration contract is embedded. -/

/-- A request handler: request payload to response or error. -/
abbrev Handler : Type := String → Except String String

/-- The process-wide registry: one entry per registered request type. -/
abbrev Registry : Type := List (String × Handler)

/-- Modelled from the spec: `RegisterRequestHandler` fails fast at startup
when a handler for the same request type is already registered; otherwise it
adds the handler. -/
def RegisterRequestHandler (reg : Registry) (requestType : String)
    (h : Handler) : Except String Registry :=
  if reg.any (fun p => p.1 == requestType) then
    .error ("handler already registered for request type " ++ requestType)
  else
    .ok (reg ++ [(requestType, h)])

/-- Modelled from the spec: `Send` resolves the handler for the request's
runtime type and invokes it; no handler is a dispatch error. -/
def Send (reg : Registry) (requestType : String) (request : String) :
    Except String String :=
  match reg.find? (fun p => p.1 == requestType) with
  | some p => p.2 request
  | none => .error ("no handler registered for request type " ++ requestType)

/-! ## Event Publisher envelopes and message ids (§4.3)

Modelled from the spec: the Event Publisher is not among the shown sources;
§4.3's contract is embedded.  Message ids are drawn from a generator that is
advanced once per `Publish` call, so every attempt (initial try or retry) of
the same call serializes the same ids, while the next call starts beyond
them. -/

/-- The wire envelope of a DomainEvent (§3): adds the globally unique message
id and keeps the stream position for the consumer. -/
structure EventEnvelope where
  messageId : Nat
  aggregateId : Nat
  position : Nat
  payload : String
  deriving DecidableEq, Repr

/-- Modelled from the spec: wrap each DomainEvent of the batch in an
EventEnvelope, assigning message ids `callGen, callGen+1, ...` from the
generator value fixed for this `Publish` call. -/
def assignEnvelopes (callGen : Nat) (batch : List DomainEvent) :
    List EventEnvelope :=
  (List.range batch.length).zip batch |>.map fun p =>
    { messageId := callGen + p.1, aggregateId := p.2.aggregateId,
      position := p.2.position, payload := p.2.payload }

/-- Modelled from the spec: one attempt (initial or retry) of a `Publish`
call serializes the batch with the call's fixed generator value; the attempt
number plays no part in id assignment. -/
def publishAttempt (callGen : Nat) (attemptNo : Nat)
    (batch : List DomainEvent) : List EventEnvelope :=
  let _ := attemptNo
  assignEnvelopes callGen batch

/-- Modelled from the spec: a completed `Publish` call returns its envelopes
and the advanced generator handed to the next call. -/
def publishCall (gen : Nat) (batch : List DomainEvent) :
    List EventEnvelope × Nat :=
  (assignEnvelopes gen batch, gen + batch.length)

/-! ## Bus partitions and end-to-end ordering (§4.3, §5, §8 P1)

Modelled from the spec: the durable bus keeps one partition/queue per
aggregate stream; the publisher appends envelopes in raised order to their
aggregate's partition, and a single worker bound to a partition receives that
queue in order, while envelopes of different aggregates sit in different
partitions with no order between them. -/

/-- The partition an envelope is routed to: one per aggregate stream. -/
def partitionFor (aggregateId : Nat) : Nat := aggregateId

/-- The bus: the queue of each partition, in delivery order. -/
abbrev Bus : Type := Nat → List EventEnvelope

/-- The empty bus. -/
def emptyBus : Bus := fun _ => []

/-- Append one envelope at the tail of its partition's queue. -/
def busPush (bus : Bus) (e : EventEnvelope) : Bus :=
  fun k => if k = partitionFor e.aggregateId then bus k ++ [e] else bus k

/-- Publish the envelopes in raised order, each to its partition. -/
def busPublishAll (bus : Bus) : List EventEnvelope → Bus
  | [] => bus
  | e :: rest => busPublishAll (busPush bus e) rest

/-- What a single worker bound to partition `k` receives, in order. -/
def deliveredTo (bus : Bus) (k : Nat) : List EventEnvelope := bus k

/-- A global observation order of everything on the bus: any interleaving of
the partition queues — it restricts to each partition's queue, but the bus
promises nothing about the relative order of different partitions. -/
def Observation (bus : Bus) (obs : List EventEnvelope) : Prop :=
  ∀ k, obs.filter (fun e => partitionFor e.aggregateId == k) = bus k

/-- Sample envelopes: two events of aggregate 1 (stream positions 1 and 2)
and one event of aggregate 2. -/
def busEnv1 : EventEnvelope :=
  { messageId := 1, aggregateId := 1, position := 1, payload := "OrderCreatedEventV1" }

def busEnv2 : EventEnvelope :=
  { messageId := 2, aggregateId := 1, position := 2, payload := "OrderPaidEventV1" }

def busEnv3 : EventEnvelope :=
  { messageId := 3, aggregateId := 2, position := 1, payload := "OrderCreatedEventV1" }

/-- Sample publish order: aggregate 1's two events, then aggregate 2's. -/
def sampleRaised : List EventEnvelope := [busEnv1, busEnv2, busEnv3]

/-- One global observation of `sampleRaised`. -/
def sampleObsA : List EventEnvelope := [busEnv1, busEnv2, busEnv3]

/-- Another global observation of `sampleRaised`: aggregate 2's event is seen
first; per-aggregate order is intact. -/
def sampleObsB : List EventEnvelope := [busEnv3, busEnv1, busEnv2]

/-- Sample domain events for the publisher claims. -/
def evOrder1 : DomainEvent :=
  { aggregateId := 7, position := 1, payload := "OrderCreatedEventV1" }

def evOrder2 : DomainEvent :=
  { aggregateId := 7, position := 2, payload := "OrderPaidEventV1" }

def evOrder3 : DomainEvent :=
  { aggregateId := 8, position := 1, payload := "OrderCreatedEventV1" }

/-! ## Theorems about the projection -/

/-- Claim C4: for every stream event whose payload is not the recognized
`OrderCreatedEventV1`, `ProcessEvent` returns nil (success), not an error. -/
theorem processEvent_unrecognized_returns_ok (deps : ProjectionDeps)
    (streamEvent : StreamEvent) (st : ProjState)
    (h : ∀ evt, streamEvent.Event ≠ EventPayload.orderCreated evt) :
    (ProcessEvent deps streamEvent st).1 = .ok () := by
  cases hev : streamEvent.Event with
  | orderCreated evt => exact absurd hev (h evt)
  | otherEvent tag => simp [ProcessEvent, hev]

/-- Witness for C4: a `PaymentCompletedEventV1` stream event is not an
`OrderCreatedEventV1`, and `ProcessEvent` accepts it with nil. -/
theorem processEvent_unrecognized_returns_ok_witness :
    (ProcessEvent sampleDeps
      { StreamId := 3, Version := 1, Event := .otherEvent "PaymentCompletedEventV1" }
      emptyProjState).1 = .ok () :=
  processEvent_unrecognized_returns_ok sampleDeps _ emptyProjState (by intro evt; simp)

/-- Claim C10: a stream event whose payload is not the recognized
`OrderCreatedEventV1` causes no access to the order read repository:
the read store (and the whole projection state) is left unchanged. -/
theorem processEvent_unrecognized_leaves_state_unchanged (deps : ProjectionDeps)
    (streamEvent : StreamEvent) (st : ProjState)
    (h : ∀ evt, streamEvent.Event ≠ EventPayload.orderCreated evt) :
    (ProcessEvent deps streamEvent st).2 = st := by
  cases hev : streamEvent.Event with
  | orderCreated evt => exact absurd hev (h evt)
  | otherEvent tag => simp [ProcessEvent, hev]

/-- Witness for C10: the state, read store included, is untouched by a
`ProductCreatedEventV1` stream event. -/
theorem processEvent_unrecognized_leaves_state_unchanged_witness :
    (ProcessEvent sampleDeps
      { StreamId := 9, Version := 4, Event := .otherEvent "ProductCreatedEventV1" }
      emptyProjState).2 = emptyProjState :=
  processEvent_unrecognized_leaves_state_unchanged sampleDeps _ emptyProjState
    (by intro evt; simp)

/-- Claim C1 (refuting evaluation): redelivering the same
`OrderCreatedEventV1` envelope (same aggregate id 7, same stream position 1)
a second time does NOT leave the order read model unchanged: both deliveries
return nil, but the second inserts a second `OrderReadModel` document under a
fresh `uuid.NewV4()` document id, so the read store holds two documents where
one delivery leaves one. -/
theorem processEvent_redelivery_not_idempotent :
    (ProcessEvent sampleDeps sampleEnvelope emptyProjState).1 = .ok () ∧
    (ProcessEvent sampleDeps sampleEnvelope
      (ProcessEvent sampleDeps sampleEnvelope emptyProjState).2).1 = .ok () ∧
    (ProcessEvent sampleDeps sampleEnvelope
      (ProcessEvent sampleDeps sampleEnvelope emptyProjState).2).2 ≠
      (ProcessEvent sampleDeps sampleEnvelope emptyProjState).2 ∧
    (ProcessEvent sampleDeps sampleEnvelope
      (ProcessEvent sampleDeps sampleEnvelope emptyProjState).2).2.docs.length = 2 ∧
    (ProcessEvent sampleDeps sampleEnvelope emptyProjState).2.docs.length = 1 :=
  ⟨by rfl, by rfl, by decide, by decide, by decide⟩

/-- Claim C5: when the shop items of an `OrderCreatedEventV1` map
successfully, `ProcessEvent` returns nil and the read store afterwards holds
an `OrderReadModel` whose order id, items, account email, delivery address
and delivered time equal the corresponding fields of the event. -/
theorem processEvent_orderCreated_creates_matching_read_model
    (deps : ProjectionDeps) (evt : OrderCreatedEventV1) (sid v : Nat)
    (st : ProjState) (items : List ShopItemReadModel)
    (h : deps.mapShopItems evt.ShopItems = .ok items) :
    (ProcessEvent deps ⟨sid, v, .orderCreated evt⟩ st).1 = .ok () ∧
    ∃ d ∈ (ProcessEvent deps ⟨sid, v, .orderCreated evt⟩ st).2.docs,
      d.OrderId = evt.OrderId ∧ d.ShopItems = items ∧
      d.AccountEmail = evt.AccountEmail ∧
      d.DeliveryAddress = evt.DeliveryAddress ∧
      d.DeliveredTime = evt.DeliveredTime := by
  constructor
  · simp [ProcessEvent, onOrderCreated, h]
  · refine ⟨NewOrderReadModel st.nextUuid evt.OrderId items
      evt.AccountEmail evt.DeliveryAddress evt.DeliveredTime, ?_, rfl, rfl, rfl, rfl, rfl⟩
    simp [ProcessEvent, onOrderCreated, h]

/-- Witness for C5: the spec's scenario `CreateOrder{orderId=7, items=[A,B]}`
delivered at stream position 1 into an empty read store yields nil and a read
model for order id 7 with items [A, B]. -/
theorem processEvent_orderCreated_creates_matching_read_model_witness :
    (ProcessEvent sampleDeps ⟨7, 1, .orderCreated sampleOrderCreated⟩ emptyProjState).1 = .ok () ∧
    ∃ d ∈ (ProcessEvent sampleDeps ⟨7, 1, .orderCreated sampleOrderCreated⟩ emptyProjState).2.docs,
      d.OrderId = sampleOrderCreated.OrderId ∧
      d.ShopItems =
        [{ Title := "A", Description := "item A", Quantity := 1, Price := 10 },
         { Title := "B", Description := "item B", Quantity := 2, Price := 25 }] ∧
      d.AccountEmail = sampleOrderCreated.AccountEmail ∧
      d.DeliveryAddress = sampleOrderCreated.DeliveryAddress ∧
      d.DeliveredTime = sampleOrderCreated.DeliveredTime :=
  processEvent_orderCreated_creates_matching_read_model sampleDeps sampleOrderCreated
    7 1 emptyProjState
    [{ Title := "A", Description := "item A", Quantity := 1, Price := 10 },
     { Title := "B", Description := "item B", Quantity := 2, Price := 25 }] rfl

/-- Claim C9: when mapping the event's shop items fails, `onOrderCreated`
returns a non-nil (wrapped) error and performs no write: the read store and
the whole projection state are unchanged. -/
theorem onOrderCreated_map_failure_no_write (deps : ProjectionDeps)
    (evt : OrderCreatedEventV1) (st : ProjState) (e : String)
    (h : deps.mapShopItems evt.ShopItems = .error e) :
    (∃ msg, (onOrderCreated deps evt st).1 = .error msg) ∧
    (onOrderCreated deps evt st).2 = st := by
  refine ⟨⟨"[mongoOrderProjection_onOrderCreated.Map] error in mapping shopItems: " ++ e, ?_⟩, ?_⟩ <;>
    simp [onOrderCreated, h]

/-- Witness for C9: with a mapper that rejects the items, `onOrderCreated`
errors and the empty read store stays empty. -/
theorem onOrderCreated_map_failure_no_write_witness :
    (∃ msg, (onOrderCreated failingDeps sampleOrderCreated emptyProjState).1 = .error msg) ∧
    (onOrderCreated failingDeps sampleOrderCreated emptyProjState).2 = emptyProjState :=
  onOrderCreated_map_failure_no_write failingDeps sampleOrderCreated emptyProjState
    "missing mapping profile" rfl

/-! ## Theorems about the Unit of Work -/

/-- Claim C2: in every `Do` run, the buffered batch is handed to the Event
Publisher only strictly after the commit step (the trace holds a commit, at a
smaller index than any publish step), never before; and when the publish step
then fails, the caller gets the distinct `publishAfterCommitError` while the
committed writes stand. -/
theorem uow_publishes_only_after_commit (publishOk : List DomainEvent → Bool)
    (action : List Write → ActionOutcome) (db : List Write) :
    (∀ b, UowOp.publishBatch b ∈ (Do publishOk action db).trace →
      UowOp.commitTx ∈ (Do publishOk action db).trace ∧
      (Do publishOk action db).trace.indexOf UowOp.commitTx <
        (Do publishOk action db).trace.indexOf (UowOp.publishBatch b)) ∧
    ((action db).err = none → publishOk (action db).events = false →
      (Do publishOk action db).res =
        .error (.publishAfterCommitError "publishing domain events failed") ∧
      (Do publishOk action db).db = db ++ (action db).writes) := by
  cases he : (action db).err with
  | some e =>
    refine ⟨fun b hb => ?_, fun h1 _ => ?_⟩
    · simp [Do, he] at hb
    · simp at h1
  | none =>
    have htr : ∀ b, b = (action db).events →
        UowOp.commitTx ∈ [UowOp.beginTx, UowOp.commitTx, UowOp.publishBatch (action db).events] ∧
        List.indexOf UowOp.commitTx
            [UowOp.beginTx, UowOp.commitTx, UowOp.publishBatch (action db).events] <
          List.indexOf (UowOp.publishBatch b)
            [UowOp.beginTx, UowOp.commitTx, UowOp.publishBatch (action db).events] := by
      intro b hbev
      subst hbev
      refine ⟨by simp, ?_⟩
      rw [List.indexOf_cons_ne _ (by simp), List.indexOf_cons_self,
        List.indexOf_cons_ne _ (by simp), List.indexOf_cons_ne _ (by simp),
        List.indexOf_cons_self]
      omega
    by_cases hp : publishOk (action db).events
    · refine ⟨fun b hb => ?_, fun _ h2 => ?_⟩
      · simp only [Do, he, hp, if_true] at hb ⊢
        exact htr b (by simpa using hb)
      · rw [hp] at h2; cases h2
    · refine ⟨fun b hb => ?_, fun _ _ => ?_⟩
      · simp only [Do, he, hp, if_false] at hb ⊢
        exact htr b (by simpa using hb)
      · simp [Do, he, hp]

/-- Witness for C2: a unit of work whose action succeeds but whose publish
step fails: the commit step precedes the publish step in the trace, the
caller sees the publish-after-commit error, and the committed write
survives. -/
theorem uow_publishes_only_after_commit_witness :
    (UowOp.commitTx ∈
        (Do (fun _ => false)
          (fun _ =>
            { writes := [{ aggregateId := 7, newState := "order created" }],
              events := [{ aggregateId := 7, position := 1, payload := "OrderCreatedEventV1" }],
              err := none })
          []).trace ∧
      (Do (fun _ => false)
          (fun _ =>
            { writes := [{ aggregateId := 7, newState := "order created" }],
              events := [{ aggregateId := 7, position := 1, payload := "OrderCreatedEventV1" }],
              err := none })
          []).trace.indexOf UowOp.commitTx <
        (Do (fun _ => false)
          (fun _ =>
            { writes := [{ aggregateId := 7, newState := "order created" }],
              events := [{ aggregateId := 7, position := 1, payload := "OrderCreatedEventV1" }],
              err := none })
          []).trace.indexOf
          (UowOp.publishBatch
            [{ aggregateId := 7, position := 1, payload := "OrderCreatedEventV1" }])) ∧
    (Do (fun _ => false)
        (fun _ =>
          { writes := [{ aggregateId := 7, newState := "order created" }],
            events := [{ aggregateId := 7, position := 1, payload := "OrderCreatedEventV1" }],
            err := none })
        []).res =
      .error (.publishAfterCommitError "publishing domain events failed") ∧
    (Do (fun _ => false)
        (fun _ =>
          { writes := [{ aggregateId := 7, newState := "order created" }],
            events := [{ aggregateId := 7, position := 1, payload := "OrderCreatedEventV1" }],
            err := none })
      []).db = [] ++ [{ aggregateId := 7, newState := "order created" }] := by
  refine ⟨(uow_publishes_only_after_commit _ _ _).1 _ (by decide), ?_, ?_⟩
  · exact ((uow_publishes_only_after_commit _ _ _).2 rfl rfl).1
  · exact ((uow_publishes_only_after_commit _ _ _).2 rfl rfl).2

/-- Claim C3: every `Do` run begins a transaction before anything else; the
trace holds a commit exactly when the action returned no error and a rollback
exactly otherwise; and on an action error the caller gets that error back, no
write survives, and no event is handed to the publisher. -/
theorem uow_atomicity (publishOk : List DomainEvent → Bool)
    (action : List Write → ActionOutcome) (db : List Write) :
    (Do publishOk action db).trace.head? = some UowOp.beginTx ∧
    (UowOp.commitTx ∈ (Do publishOk action db).trace ↔ (action db).err = none) ∧
    (UowOp.rollbackTx ∈ (Do publishOk action db).trace ↔ (action db).err ≠ none) ∧
    (∀ e, (action db).err = some e →
      (Do publishOk action db).res = .error (.actionError e) ∧
      (Do publishOk action db).db = db ∧
      (Do publishOk action db).published = []) := by
  cases he : (action db).err with
  | some e =>
    refine ⟨by simp [Do, he], by simp [Do, he], by simp [Do, he], fun e2 he2 => ?_⟩
    injection he2 with h3
    subst h3
    exact ⟨by simp [Do, he], by simp [Do, he], by simp [Do, he]⟩
  | none =>
    by_cases hp : publishOk (action db).events
    · refine ⟨by simp [Do, he, hp], by simp [Do, he, hp], by simp [Do, he, hp],
        fun e2 he2 => ?_⟩
      simp at he2
    · refine ⟨by simp [Do, he, hp], by simp [Do, he, hp], by simp [Do, he, hp],
        fun e2 he2 => ?_⟩
      simp at he2

/-- Witness for C3: a unit of work whose action fails with a conflict error
rolls back: the trace is begin-then-rollback, the error is surfaced, the
database keeps its prior contents and nothing is handed to the publisher. -/
theorem uow_atomicity_witness :
    (Do (fun _ => true)
        (fun _ =>
          { writes := [{ aggregateId := 7, newState := "order created" }],
            events := [{ aggregateId := 7, position := 1, payload := "OrderCreatedEventV1" }],
            err := some "optimistic concurrency conflict" })
        [{ aggregateId := 3, newState := "existing" }]).trace.head? = some UowOp.beginTx ∧
    (Do (fun _ => true)
        (fun _ =>
          { writes := [{ aggregateId := 7, newState := "order created" }],
            events := [{ aggregateId := 7, position := 1, payload := "OrderCreatedEventV1" }],
            err := some "optimistic concurrency conflict" })
        [{ aggregateId := 3, newState := "existing" }]).res =
      .error (.actionError "optimistic concurrency conflict") ∧
    (Do (fun _ => true)
        (fun _ =>
          { writes := [{ aggregateId := 7, newState := "order created" }],
            events := [{ aggregateId := 7, position := 1, payload := "OrderCreatedEventV1" }],
            err := some "optimistic concurrency conflict" })
        [{ aggregateId := 3, newState := "existing" }]).db =
      [{ aggregateId := 3, newState := "existing" }] ∧
    (Do (fun _ => true)
        (fun _ =>
          { writes := [{ aggregateId := 7, newState := "order created" }],
            events := [{ aggregateId := 7, position := 1, payload := "OrderCreatedEventV1" }],
            err := some "optimistic concurrency conflict" })
        [{ aggregateId := 3, newState := "existing" }]).published = [] := by
  refine ⟨(uow_atomicity _ _ _).1, ?_⟩
  have h := (uow_atomicity (fun _ => true)
    (fun _ =>
      ({ writes := [{ aggregateId := 7, newState := "order created" }],
         events := [{ aggregateId := 7, position := 1, payload := "OrderCreatedEventV1" }],
         err := some "optimistic concurrency conflict" } : ActionOutcome))
    [{ aggregateId := 3, newState := "existing" }]).2.2.2
    "optimistic concurrency conflict" rfl
  exact ⟨h.1, h.2.1, h.2.2⟩

/-! ## Theorems about bus partitions and ordering -/

/-- The bus after publishing a batch: each partition holds what it held
before, followed by the batch's envelopes for that partition in publish
order. -/
theorem busPublishAll_apply (envs : List EventEnvelope) (bus : Bus) (k : Nat) :
    busPublishAll bus envs k =
      bus k ++ envs.filter (fun e => partitionFor e.aggregateId == k) := by
  induction envs generalizing bus with
  | nil => simp [busPublishAll]
  | cons e rest ih =>
    rw [busPublishAll, ih]
    by_cases hk : k = partitionFor e.aggregateId
    · subst hk
      simp [busPush, List.filter_cons]
    · have hk2 : (partitionFor e.aggregateId == k) = false := by
        simp [Ne.symm hk]
      simp [busPush, hk, List.filter_cons, hk2]

/-- `sampleObsA` is a valid observation of the bus after `sampleRaised`. -/
theorem sampleObsA_valid : Observation (busPublishAll emptyBus sampleRaised) sampleObsA := by
  intro k
  rw [busPublishAll_apply]
  simp [emptyBus, sampleObsA, sampleRaised]

/-- `sampleObsB` is a valid observation of the bus after `sampleRaised`. -/
theorem sampleObsB_valid : Observation (busPublishAll emptyBus sampleRaised) sampleObsB := by
  intro k
  rw [busPublishAll_apply]
  by_cases h1 : (1 : Nat) = k
  · subst h1; decide
  · by_cases h2 : (2 : Nat) = k
    · subst h2; decide
    · have h1f : ((1 : Nat) == k) = false := by simp [h1]
      have h2f : ((2 : Nat) == k) = false := by simp [h2]
      simp [emptyBus, sampleObsB, sampleRaised, busEnv1, busEnv2, busEnv3,
        partitionFor, List.filter_cons, h1f, h2f]

/-- Claim C6: events of one aggregate raised in order in one unit of work
keep that order end-to-end — the worker on the aggregate's partition receives
exactly that aggregate's envelopes in raised order, and every global
observation of the bus preserves the per-aggregate order (strictly increasing
stream positions stay strictly increasing); at the same time no order is
guaranteed across aggregates: one published batch admits two distinct valid
observations. -/
theorem per_aggregate_order_preserved :
    (∀ (raised obs : List EventEnvelope) (a : Nat),
      Observation (busPublishAll emptyBus raised) obs →
      ((raised.filter (fun e => e.aggregateId == a)).map EventEnvelope.position).Pairwise (· < ·) →
      deliveredTo (busPublishAll emptyBus raised) (partitionFor a) =
        raised.filter (fun e => e.aggregateId == a) ∧
      ((obs.filter (fun e => e.aggregateId == a)).map EventEnvelope.position).Pairwise (· < ·)) ∧
    (∃ raised obsA obsB,
      Observation (busPublishAll emptyBus raised) obsA ∧
      Observation (busPublishAll emptyBus raised) obsB ∧ obsA ≠ obsB) := by
  constructor
  · intro raised obs a hObs hPair
    have hbus : busPublishAll emptyBus raised a =
        raised.filter (fun e => e.aggregateId == a) := by
      rw [busPublishAll_apply]
      simp [emptyBus, partitionFor]
    have hobs : obs.filter (fun e => e.aggregateId == a) =
        raised.filter (fun e => e.aggregateId == a) := by
      have h := hObs a
      simp only [partitionFor] at h
      rw [h, hbus]
    exact ⟨by simpa [deliveredTo, partitionFor] using hbus, by rw [hobs]; exact hPair⟩
  · exact ⟨sampleRaised, sampleObsA, sampleObsB, sampleObsA_valid, sampleObsB_valid,
      by decide⟩

/-- Witness for C6: with aggregate 1's two envelopes (positions 1 then 2) and
aggregate 2's envelope published, observation `sampleObsB` still presents
aggregate 1's positions strictly increasing, and aggregate 1's partition
worker receives exactly aggregate 1's envelopes in publish order. -/
theorem per_aggregate_order_preserved_witness :
    deliveredTo (busPublishAll emptyBus sampleRaised) (partitionFor 1) =
      sampleRaised.filter (fun e => e.aggregateId == 1) ∧
    ((sampleObsB.filter (fun e => e.aggregateId == 1)).map EventEnvelope.position).Pairwise (· < ·) :=
  per_aggregate_order_preserved.1 sampleRaised sampleObsB 1 sampleObsB_valid (by decide)

/-! ## Theorems about the mediator registry -/

/-- Claim C7: starting from a registry with no duplicate request types,
a successful registration makes any second registration for the same type
fail at registration time with an error; the registry keys stay duplicate
free, the type resolves to exactly one registered handler, and dispatching
that type invokes exactly the registered handler. -/
theorem mediator_handler_uniqueness (reg : Registry) (ty : String) (h : Handler)
    (reg1 : Registry) (hnd : (reg.map Prod.fst).Nodup)
    (hreg : RegisterRequestHandler reg ty h = .ok reg1) :
    (∀ h2 : Handler, ∃ msg, RegisterRequestHandler reg1 ty h2 = .error msg) ∧
    (reg1.map Prod.fst).Nodup ∧
    (reg1.filter (fun p => p.1 == ty)).length = 1 ∧
    (∀ request, Send reg1 ty request = h request) := by
  unfold RegisterRequestHandler at hreg
  by_cases hc : reg.any (fun p => p.1 == ty) = true
  · simp [hc] at hreg
  · rw [if_neg (by simpa using hc)] at hreg
    injection hreg with hreg
    subst hreg
    have hnot : ∀ p ∈ reg, ¬(p.1 = ty) := by
      intro p hp
      simp only [List.any_eq_true, not_exists] at hc
      push_neg at hc
      have := hc p hp
      simpa using this
    refine ⟨?_, ?_, ?_, ?_⟩
    · intro h2
      refine ⟨"handler already registered for request type " ++ ty, ?_⟩
      unfold RegisterRequestHandler
      rw [if_pos]
      simp [List.any_append]
    · rw [List.map_append]
      rw [List.nodup_append]
      refine ⟨hnd, by simp, ?_⟩
      intro x hx
      simp only [List.mem_map] at hx
      obtain ⟨p, hp, hpx⟩ := hx
      simp only [List.map_cons, List.map_nil, List.mem_singleton]
      intro hxy
      exact hnot p hp (hpx.trans hxy)
    · rw [List.filter_append]
      have hfil : reg.filter (fun p => p.1 == ty) = [] := by
        rw [List.filter_eq_nil_iff]
        intro p hp
        simpa using hnot p hp
      simp [hfil, List.filter_cons]
    · intro request
      unfold Send
      have hfind : (reg ++ [(ty, h)]).find? (fun p => p.1 == ty) = some (ty, h) := by
        rw [List.find?_append]
        have hnone : reg.find? (fun p => p.1 == ty) = none := by
          rw [List.find?_eq_none]
          intro p hp
          simpa using hnot p hp
        rw [hnone]
        simp [List.find?]
      rw [hfind]

/-- Witness for C7: registering a handler for `CreateOrderCommand` into the
empty registry succeeds; a second registration for the same type fails at
registration time, the type resolves to exacly one handler, and dispatch
invokes it. -/
theorem mediator_handler_uniqueness_witness :
    (∀ h2 : Handler, ∃ msg,
      RegisterRequestHandler [("CreateOrderCommand", fun s => Except.ok ("handled:" ++ s))]
        "CreateOrderCommand" h2 = .error msg) ∧
    (([("CreateOrderCommand", fun s => Except.ok ("handled:" ++ s))] : Registry).map
      Prod.fst).Nodup ∧
    (([("CreateOrderCommand", fun s => Except.ok ("handled:" ++ s))] : Registry).filter
      (fun p => p.1 == "CreateOrderCommand")).length = 1 ∧
    (∀ request, Send [("CreateOrderCommand", fun s => Except.ok ("handled:" ++ s))]
      "CreateOrderCommand" request = Except.ok ("handled:" ++ request)) :=
  mediator_handler_uniqueness [] "CreateOrderCommand"
    (fun s => Except.ok ("handled:" ++ s))
    [("CreateOrderCommand", fun s => Except.ok ("handled:" ++ s))]
    (by simp) rfl

/-! ## Theorems about message id assignment -/

/-- The message ids of one call's envelopes are the consecutive ids starting
at the call's generator value. -/
theorem assignEnvelopes_map_messageId (g : Nat) (batch : List DomainEvent) :
    (assignEnvelopes g batch).map EventEnvelope.messageId =
      (List.range batch.length).map (fun i => g + i) := by
  unfold assignEnvelopes
  rw [List.map_map]
  have hfst : ((List.range batch.length).zip batch).map
      (EventEnvelope.messageId ∘ fun p =>
        ({ messageId := g + p.1, aggregateId := p.2.aggregateId,
           position := p.2.position, payload := p.2.payload } : EventEnvelope)) =
      ((List.range batch.length).zip batch).map (fun p => g + p.1) := rfl
  rw [hfst]
  have hcomp : (fun p : Nat × DomainEvent => g + p.1) =
      (fun i => g + i) ∘ Prod.fst := rfl
  rw [hcomp, ← List.map_map, List.map_fst_zip]
  simp

/-- Claim C8: message id assignment is deterministic per Publish call: every
attempt (initial or retry) of the same call produces envelopes with identical
message ids; within one call the ids are pairwise distinct; and the ids of
the next Publish call are disjoint from the previous call's. -/
theorem publisher_message_ids_deterministic :
    (∀ (callGen a1 a2 : Nat) (batch : List DomainEvent),
      publishAttempt callGen a1 batch = publishAttempt callGen a2 batch) ∧
    (∀ (g : Nat) (batch : List DomainEvent),
      ((publishCall g batch).1.map EventEnvelope.messageId).Nodup) ∧
    (∀ (g : Nat) (b1 b2 : List DomainEvent) (m1 m2 : Nat),
      m1 ∈ (publishCall g b1).1.map EventEnvelope.messageId →
      m2 ∈ (publishCall ((publishCall g b1).2) b2).1.map EventEnvelope.messageId →
      m1 ≠ m2) := by
  refine ⟨fun _ _ _ _ => rfl, ?_, ?_⟩
  · intro g batch
    have : (publishCall g batch).1 = assignEnvelopes g batch := rfl
    rw [this, assignEnvelopes_map_messageId]
    exact (List.nodup_range _).map fun a b hab => by omega
  · intro g b1 b2 m1 m2 h1 h2
    have e1 : (publishCall g b1).1 = assignEnvelopes g b1 := rfl
    have e2 : (publishCall ((publishCall g b1).2) b2).1 =
        assignEnvelopes (g + b1.length) b2 := rfl
    rw [e1, assignEnvelopes_map_messageId] at h1
    rw [e2, assignEnvelopes_map_messageId] at h2
    simp only [List.mem_map, List.mem_range] at h1 h2
    obtain ⟨i, hi, hm1⟩ := h1
    obtain ⟨j, hj, hm2⟩ := h2
    omega

/-- Witness for C8: publishing `[evOrder1, evOrder2]` at generator 5 gives
ids 5 and 6 on every attempt, pairwise distinct; the next call's first id 7
differs from the first call's first id 5. -/
theorem publisher_message_ids_deterministic_witness :
    publishAttempt 5 1 [evOrder1, evOrder2] = publishAttempt 5 2 [evOrder1, evOrder2] ∧
    ((publishCall 5 [evOrder1, evOrder2]).1.map EventEnvelope.messageId).Nodup ∧
    (5 : Nat) ≠ 7 :=
  ⟨publisher_message_ids_deterministic.1 5 1 2 [evOrder1, evOrder2],
   publisher_message_ids_deterministic.2.1 5 [evOrder1, evOrder2],
   publisher_message_ids_deterministic.2.2 5 [evOrder1, evOrder2] [evOrder3] 5 7
     (by decide) (by decide)⟩

end ECommerce
